import Mathlib

/-!
Shallow embedding of `src/main.py` (pycacher): the `PycacheEntry` wrapper and
the `Pycache` container, together with theorems relating them to the
specification.

Modelling conventions:
* Python integers are `Int`; snowflake identifiers (64-bit unsigned) are `Nat`.
* Millisecond timestamps are `Int`.  Every place the source samples the wall
  clock (`math.floor(time.time() * 1000)`) takes an explicit `now` argument.
* Python values are the inductive `PyVal`.  The source never inspects the
  contents of floats, complex numbers, tuples or frozen sets (it only stores
  them and tests `isinstance` and truthiness), so those carry an opaque `Nat`
  label, with label `0` standing for the zero / empty literal (the falsy one).
* Mutable payload objects are `PyVal.vobj cls st`: a class identifier plus an
  opaque internal state.  A `ClassTable` gives, per class, the `update` and
  `serialize` attributes (absent / present-but-not-callable / callable),
  their behaviour as functions of the internal state, and the one-argument
  constructor used by `self._value_instance(...)`.  Per the spec's capability
  contract, `update` takes a single argument and `serialize` takes none;
  modelled classes expose no attributes beyond these two.
* Exceptions are the error kinds `PyErr`; fallible code returns `Except`, and
  operations that can both mutate state and raise return the `Except` result
  paired with the post-state.
-/

/-- Result of a Python attribute lookup for a capability such as `update` or
`serialize`: the attribute may be absent (`hasattr` false), present but not
callable, or a callable method. -/
inductive AttrKind where
  | absent
  | notCallable
  | callable
  deriving DecidableEq

/-- Python runtime values, restricted to the shapes `src/main.py` ever
distinguishes: the seven builtin immutable scalar kinds, `None`, and mutable
objects (a class id plus opaque internal state). -/
inductive PyVal where
  | vnone
  | vint (n : Int)
  | vstr (s : String)
  | vbool (b : Bool)
  | vfloat (u : Nat)
  | vcomplex (u : Nat)
  | vtuple (u : Nat)
  | vfrozenset (u : Nat)
  | vobj (cls : Nat) (st : Nat)
  deriving DecidableEq

/-- Exception kinds raised by the source (or by the raw values it touches).
The string payloads carry the attribute or type name interpolated into the
Python message. -/
inductive PyErr where
  | notFound
  | duplicateKey
  | noMatches
  | badIdentifierType (received : String)
  | notUpdatable
  | noUpdateMethod
  | serializeNotCallable
  | noSerializeMethod
  | attrMissing (name : String)
  | typeErrCall
  | userRaised (code : Nat)
  deriving DecidableEq

/-- Behaviour of one user-defined class of mutable payload objects: the
`serialize` and `update` attributes, their bodies (as functions of the
object's internal state), and the single-argument constructor used by
`self._value_instance(serialized)`.  `updFn st newData` returns the method's
return value together with the mutated internal state; either method and the
constructor may raise. -/
structure MutClass where
  serAttr : AttrKind
  serFn : Nat → Except PyErr PyVal
  updAttr : AttrKind
  updFn : Nat → PyVal → Except PyErr (PyVal × Nat)
  ctor : PyVal → Except PyErr Nat

/-- Environment mapping each class identifier to its behaviour. -/
def ClassTable := Nat → MutClass

/-- Declared value type (`entry_instance` / `self._value_instance`): one of
the seven builtin immutable classes compared against by `is_immutable`, or a
user-defined class. -/
inductive DeclType where
  | dint
  | dstr
  | dfloat
  | dcomplex
  | dbool
  | dtuple
  | dfrozenset
  | dclass (cls : Nat)
  deriving DecidableEq

/-- Keys of the `_cache` dict.  `add` always inserts integer snowflake keys,
but `remove` may look up string keys, so both are representable. -/
inductive PyKey where
  | kint (n : Nat)
  | kstr (s : String)
  deriving DecidableEq

/-- External pyflake handle: exposes the 64-bit id (`snowflake.snowflake`)
and its string rendering (`snowflake.string()`). -/
structure Snowflake where
  snowflake : Nat
  string : String
  deriving DecidableEq

/-- Truthiness of a `PyVal` (Python `bool(x)`).  Zero and empty scalars are
falsy (opaque label `0` is the zero / empty literal), `None` is falsy, and
mutable payload objects are truthy: they define no `__bool__` or `__len__`
(their only modelled attributes are `update` and `serialize`). -/
def PyVal.truthy : PyVal → Bool
  | .vnone => false
  | .vint n => n != 0
  | .vstr s => s != ""
  | .vbool b => b
  | .vfloat u => u != 0
  | .vcomplex u => u != 0
  | .vtuple u => u != 0
  | .vfrozenset u => u != 0
  | .vobj _ _ => true

/-- `isinstance(v, str)`. -/
def isinstStr : PyVal → Bool
  | .vstr _ => true
  | _ => false

/-- `isinstance(v, int)`.  In Python `bool` is a subclass of `int`, so
booleans are instances of `int` as well. -/
def isinstInt : PyVal → Bool
  | .vint _ => true
  | .vbool _ => true
  | _ => false

/-- `isinstance(v, complex)`. -/
def isinstComplex : PyVal → Bool
  | .vcomplex _ => true
  | _ => false

/-- `isinstance(v, bool)`. -/
def isinstBool : PyVal → Bool
  | .vbool _ => true
  | _ => false

/-- `isinstance(v, frozenset)`. -/
def isinstFrozenset : PyVal → Bool
  | .vfrozenset _ => true
  | _ => false

/-- `isinstance(v, float)`. -/
def isinstFloat : PyVal → Bool
  | .vfloat _ => true
  | _ => false

/-- `isinstance(v, tuple)`. -/
def isinstTuple : PyVal → Bool
  | .vtuple _ => true
  | _ => false

/-- The disjunction of `isinstance` checks on the new data in
`PycacheEntry.update` (line 126 of the source): `str`, `int`, `bool`,
`float`, `complex`, `tuple`, `frozenset`. -/
def isScalarInstance (v : PyVal) : Bool :=
  isinstStr v || isinstInt v || isinstBool v || isinstFloat v ||
    isinstComplex v || isinstTuple v || isinstFrozenset v

/-- Exact runtime type test `type(v) is int` (used only to state the
specification's "exact runtime type" reading of the per-type views; the
source itself uses `isinstance`). -/
def exactTypeInt : PyVal → Bool
  | .vint _ => true
  | _ => false

/-- Is the declared type one of the seven builtin immutable classes?
Mirrors the equality chain in `PycacheEntry.is_immutable`. -/
def DeclType.isBuiltinImmutable : DeclType → Bool
  | .dint => true
  | .dstr => true
  | .dfloat => true
  | .dcomplex => true
  | .dbool => true
  | .dtuple => true
  | .dfrozenset => true
  | .dclass _ => false

/-- Cache entry wrapper.  Fields follow `PycacheEntry.__init__`: `idx` and
`idx_string` come from the snowflake handle, `cached_time` is the wall clock
at construction, `fetched_time` and `max_age` are caller supplied, and
`value_instance` is the declared type of the stored `value`. -/
structure PycacheEntry where
  idx : Nat
  idx_string : String
  cached_time : Int
  fetched_time : Int
  max_age : Option Int
  value_instance : DeclType
  value : PyVal
  deriving DecidableEq

/-- `PycacheEntry.is_immutable`: compares `self._value_instance` against the
seven builtin immutable classes. -/
def PycacheEntry.is_immutable (e : PycacheEntry) : Bool :=
  e.value_instance.isBuiltinImmutable

/-- `PycacheEntry.is_stale`: `False` when `_max_age` is `0` or `None`,
otherwise `(now - _fetched_time) > _max_age`.  `now` is the millisecond wall
clock sampled at call time. -/
def PycacheEntry.is_stale (e : PycacheEntry) (now : Int) : Bool :=
  match e.max_age with
  | none => false
  | some m => if m = 0 then false else decide (now - e.fetched_time > m)

/-- `PycacheEntry.serialize`: immutable-declared entries return `value`
as-is; otherwise the stored value must expose a callable `serialize`
capability (scalar values and `None` have no `serialize` attribute, objects
have whatever their class declares). -/
def PycacheEntry.serialize (W : ClassTable) (e : PycacheEntry) : Except PyErr PyVal :=
  if e.is_immutable then
    .ok e.value
  else
    match e.value with
    | .vobj cls st =>
      match (W cls).serAttr with
      | .absent => .error .noSerializeMethod
      | .notCallable => .error .serializeNotCallable
      | .callable => (W cls).serFn st
    | _ => .error .noSerializeMethod

/-- Constructor call `self._value_instance(arg)` for building the rollback
clone.  Only reachable with a user-declared class (the builtin-immutable
declared types are diverted earlier by the `is_immutable` branch of
`update`), so the builtin cases are dead; they are mapped to a `TypeError`
placeholder. -/
def instantiate (W : ClassTable) (t : DeclType) (arg : PyVal) : Except PyErr PyVal :=
  match t with
  | .dclass cls =>
    match (W cls).ctor arg with
    | .ok st => .ok (.vobj cls st)
    | .error er => .error er
  | _ => .error .typeErrCall

/-- `PycacheEntry.update(fetched_time, entry)`.  Returns the Python return
value (or the raised error) paired with the entry's post-state, since a
failing mutable update still mutates the entry (rollback assigns the clone
to `value` before re-raising).  Branch order follows the source: immutable
declared type, then scalar new data, then the `hasattr`/`callable` checks on
the stored value's `update` capability, then clone-construction from
`serialize()` and the guarded call to `value.update(entry)`. -/
def PycacheEntry.update (W : ClassTable) (e : PycacheEntry) (fetched_time : Int)
    (entry : PyVal) : Except PyErr PyVal × PycacheEntry :=
  if e.is_immutable then
    (.ok .vnone, { e with value := entry, fetched_time := fetched_time })
  else if isScalarInstance entry then
    (.ok .vnone, { e with value := entry, fetched_time := fetched_time })
  else
    match e.value with
    | .vobj cls st =>
      match (W cls).updAttr with
      | .absent => (.error .noUpdateMethod, e)
      | .notCallable => (.error .notUpdatable, e)
      | .callable =>
        match PycacheEntry.serialize W e with
        | .error er => (.error er, e)
        | .ok s =>
          match instantiate W e.value_instance s with
          | .error er => (.error er, e)
          | .ok clone =>
            match (W cls).updFn st entry with
            | .ok res => (.ok res.1, { e with value := .vobj cls res.2, fetched_time := fetched_time })
            | .error er => (.error er, { e with value := clone })
    | _ => (.error .noUpdateMethod, e)

/-- Lookup in the `_cache` dict (`self._cache.get(idx)`). -/
def dictGet : List (PyKey × PycacheEntry) → PyKey → Option PycacheEntry
  | [], _ => none
  | p :: rest, k => if p.1 = k then some p.2 else dictGet rest k

/-- `self._cache.update([(k, v)])`: replace the value at an existing key in
place, or append a new binding at the end (dict insertion order). -/
def dictInsert : List (PyKey × PycacheEntry) → PyKey → PycacheEntry → List (PyKey × PycacheEntry)
  | [], k, v => [(k, v)]
  | p :: rest, k, v => if p.1 = k then (k, v) :: rest else p :: dictInsert rest k v

/-- `self._cache.pop(k)` (only called after a presence check). -/
def dictPop : List (PyKey × PycacheEntry) → PyKey → List (PyKey × PycacheEntry)
  | [], _ => []
  | p :: rest, k => if p.1 = k then rest else p :: dictPop rest k

/-- The cache container: `self._cache` as an association list in dict
insertion order. -/
structure Pycache where
  cache : List (PyKey × PycacheEntry)
  deriving DecidableEq

/-- `Pycache.get`: `if self._cache.get(idx):` tests the truthiness of the
looked-up `PycacheEntry` object, which defines no `__bool__`/`__len__` and
is therefore always truthy, so the test is exactly a presence test.  Returns
the entry's raw `value`; raises the not-found `AttributeError` otherwise. -/
def Pycache.get (c : Pycache) (idx : PyKey) : Except PyErr PyVal :=
  match dictGet c.cache idx with
  | some e => .ok e.value
  | none => .error .notFound

/-- Attribute access `x.value` on a raw stored value (the tail of
`Pycache.add` evaluates `self.get(res.idx).value`, where `self.get` already
returns the raw value).  Scalar values and `None` have no `value` attribute,
and mutable payload objects expose only the `update`/`serialize`
capabilities of the spec's contract, so the access raises `AttributeError`
in every modelled case. -/
def attrValueOf (v : PyVal) : Except PyErr PyVal :=
  match v with
  | _ => .error (.attrMissing "value")

/-- `Pycache.add(snowflake, entry, fetched_time, max_age, entry_instance)`.
Follows the source literally: construct the `PycacheEntry` (with `now` as
its creation wall clock), then evaluate `self.get(res.idx)` — which raises
the not-found error when the id is absent — and branch on the truthiness of
the returned raw value; the insert branch re-reads the value via
`self.get(res.idx)` and then accesses `.value` on it. -/
def Pycache.add (c : Pycache) (now : Int) (sf : Snowflake) (entry : PyVal)
    (fetched_time : Int) (max_age : Option Int) (entry_instance : DeclType) :
    Except PyErr PyVal × Pycache :=
  let res : PycacheEntry :=
    ⟨sf.snowflake, sf.string, now, fetched_time, max_age, entry_instance, entry⟩
  match Pycache.get c (.kint res.idx) with
  | .error er => (.error er, c)
  | .ok v =>
    if !v.truthy then
      let c' : Pycache := ⟨dictInsert c.cache (.kint res.idx) res⟩
      match Pycache.get c' (.kint res.idx) with
      | .ok v' => (attrValueOf v', c')
      | .error er => (.error er, c')
    else
      (.error .duplicateKey, c)

/-- Method call `v.update(entry, fetched_time)` on a raw stored value (the
body of `Pycache.update` is `self.get(idx).update(entry, fetched_time)`,
where `self.get` returns the raw value, not the wrapper).  Scalar values and
`None` have no `update` attribute (`AttributeError`); on a payload object
the attribute may be absent (`AttributeError`), not callable (`TypeError`),
or a method — which, per the spec's contract, takes a single argument, so
the two-argument call raises `TypeError` before running any method body. -/
def callRawUpdate2 (W : ClassTable) (v : PyVal) : Except PyErr PyVal :=
  match v with
  | .vobj cls _ =>
    match (W cls).updAttr with
    | .absent => .error (.attrMissing "update")
    | .notCallable => .error .typeErrCall
    | .callable => .error .typeErrCall
  | _ => .error (.attrMissing "update")

/-- `Pycache.update(idx, entry, fetched_time)`: evaluates
`self.get(idx).update(entry, fetched_time)`.  `self.get` raises the
not-found error when the id is absent; otherwise it yields the raw stored
value and the `update` attribute call happens on that value (note the
source passes `(entry, fetched_time)` — in that order — to a method whose
contract takes a single data argument). -/
def Pycache.update (W : ClassTable) (c : Pycache) (idx : PyKey) (entry : PyVal)
    (fetched_time : Int) : Except PyErr PyVal × Pycache :=
  match Pycache.get c idx with
  | .error er => (.error er, c)
  | .ok v => (callRawUpdate2 W v, c)

/-- Argument accepted by `Pycache.remove`: a pyflake handle (anything with a
`snowflake` attribute), a raw `int` or `str` identifier, or any other value
(carrying its Python type name for the error message). -/
inductive RemoveArg where
  | handle (sf : Snowflake)
  | rawInt (n : Nat)
  | rawStr (s : String)
  | other (typeName : String)
  deriving DecidableEq

/-- `Pycache.remove(snowflake)`.  Follows the source literally: each branch
may pop the entry (after `self.get` — which raises when the id is absent —
returns a truthy raw value), but no branch returns, so control always falls
through to the final `raise TypeError(...)`. -/
def Pycache.remove (c : Pycache) (arg : RemoveArg) : Except PyErr Unit × Pycache :=
  match arg with
  | .handle sf =>
    match Pycache.get c (.kint sf.snowflake) with
    | .error er => (.error er, c)
    | .ok v =>
      if v.truthy then
        (.error (.badIdentifierType "Snowflake"), ⟨dictPop c.cache (.kint sf.snowflake)⟩)
      else
        (.error (.badIdentifierType "Snowflake"), c)
  | .rawInt n =>
    match Pycache.get c (.kint n) with
    | .error er => (.error er, c)
    | .ok v =>
      if v.truthy then
        (.error (.badIdentifierType "int"), ⟨dictPop c.cache (.kint n)⟩)
      else
        (.error (.badIdentifierType "int"), c)
  | .rawStr s =>
    match Pycache.get c (.kstr s) with
    | .error er => (.error er, c)
    | .ok v =>
      if v.truthy then
        (.error (.badIdentifierType "str"), ⟨dictPop c.cache (.kstr s)⟩)
      else
        (.error (.badIdentifierType "str"), c)
  | .other t => (.error (.badIdentifierType t), c)

/-- `Pycache.find(condition)`: scan all entries in dict order, collect
`(idx, entry.value)` for entries where the condition returns `True`, and
raise the no-matches `KeyError` when the result dict is empty. -/
def Pycache.find (c : Pycache) (condition : PycacheEntry → Bool) :
    Except PyErr (List (PyKey × PyVal)) :=
  let res := (c.cache.filter fun p => condition p.2).map fun p => (p.1, p.2.value)
  if res.length > 0 then .ok res else .error .noMatches

/-- `Pycache.stale()`: `find` with `entry.is_stale()` (the wall clock `now`
is sampled during the scan). -/
def Pycache.stale (c : Pycache) (now : Int) : Except PyErr (List (PyKey × PyVal)) :=
  c.find fun entry => entry.is_stale now

/-- `Pycache.fresh()`: `find` with `not entry.is_stale()`. -/
def Pycache.fresh (c : Pycache) (now : Int) : Except PyErr (List (PyKey × PyVal)) :=
  c.find fun entry => !entry.is_stale now

/-- `Pycache.mutable()`. -/
def Pycache.mutable (c : Pycache) : Except PyErr (List (PyKey × PyVal)) :=
  c.find fun entry => !entry.is_immutable

/-- `Pycache.immutable()`. -/
def Pycache.immutable (c : Pycache) : Except PyErr (List (PyKey × PyVal)) :=
  c.find fun entry => entry.is_immutable

/-- `Pycache.str()`: `find` with `isinstance(entry.value, str)`. -/
def Pycache.str (c : Pycache) : Except PyErr (List (PyKey × PyVal)) :=
  c.find fun entry => isinstStr entry.value

/-- `Pycache.int()`: `find` with `isinstance(entry.value, int)`. -/
def Pycache.int (c : Pycache) : Except PyErr (List (PyKey × PyVal)) :=
  c.find fun entry => isinstInt entry.value

/-- `Pycache.complex()`. -/
def Pycache.complex (c : Pycache) : Except PyErr (List (PyKey × PyVal)) :=
  c.find fun entry => isinstComplex entry.value

/-- `Pycache.bool()`: `find` with `isinstance(entry.value, bool)`. -/
def Pycache.bool (c : Pycache) : Except PyErr (List (PyKey × PyVal)) :=
  c.find fun entry => isinstBool entry.value

/-- `Pycache.frozenset()`. -/
def Pycache.frozenset (c : Pycache) : Except PyErr (List (PyKey × PyVal)) :=
  c.find fun entry => isinstFrozenset entry.value

/-- `Pycache.float()`. -/
def Pycache.float (c : Pycache) : Except PyErr (List (PyKey × PyVal)) :=
  c.find fun entry => isinstFloat entry.value

/-- `Pycache.tuple()`. -/
def Pycache.tuple (c : Pycache) : Except PyErr (List (PyKey × PyVal)) :=
  c.find fun entry => isinstTuple entry.value

/-- `Pycache.length()`. -/
def Pycache.length (c : Pycache) : Nat :=
  c.cache.length

/-- Result set of a `find`-based view, reading a no-matches failure as the
empty mapping. -/
def viewList (r : Except PyErr (List (PyKey × PyVal))) : List (PyKey × PyVal) :=
  match r with
  | .ok l => l
  | .error _ => []

/-! ## Concrete fixtures used by witnesses and counterexamples -/

/-- Class table in which no class exposes any capability (sufficient for the
container-level theorems, whose interesting paths never reach a method
body). -/
def emptyClassTable : ClassTable :=
  fun _ => ⟨.absent, fun _ => .error .noSerializeMethod, .absent,
    fun _ _ => .error .noUpdateMethod, fun _ => .error (.userRaised 0)⟩

/-- Entry with declared type `int` storing `5` under id `1`. -/
def entInt5 : PycacheEntry := ⟨1, "1", 0, 0, some 0, .dint, .vint 5⟩

/-- Cache holding only `entInt5`. -/
def cacheInt5 : Pycache := ⟨[(.kint 1, entInt5)]⟩

/-- Entry with declared type `str` storing `"x"` under id `1`. -/
def entStrX : PycacheEntry := ⟨1, "1", 0, 0, some 0, .dstr, .vstr "x"⟩

/-- Cache holding only `entStrX`. -/
def cacheStrX : Pycache := ⟨[(.kint 1, entStrX)]⟩

/-- Entry with declared type `int` storing the falsy value `0` under id `1`. -/
def entInt0 : PycacheEntry := ⟨1, "1", 0, 0, some 0, .dint, .vint 0⟩

/-- Cache holding only `entInt0`. -/
def cacheInt0 : Pycache := ⟨[(.kint 1, entInt0)]⟩

/-! ## C1: `add` on an absent identifier -/

/-- C1: the claim states that `Pycache.add` on an identifier not present in
the cache succeeds, inserts the entry, and returns the stored value.  The
code instead evaluates `self.get(res.idx)` first, and `Pycache.get` raises
the not-found error precisely when the identifier is absent, so `add` always
fails with the not-found error and leaves the cache unchanged whenever the
identifier is not already present — `add` can never succeed on a fresh
identifier. -/
theorem add_on_absent_id_raises_notFound (c : Pycache) (now : Int) (sf : Snowflake)
    (entry : PyVal) (fetched_time : Int) (max_age : Option Int)
    (entry_instance : DeclType)
    (habs : dictGet c.cache (.kint sf.snowflake) = none) :
    Pycache.add c now sf entry fetched_time max_age entry_instance =
      (.error .notFound, c) := by
  simp [Pycache.add, Pycache.get, habs]

/-- C1 witness: adding `"hello"` under id `1` to the empty cache raises the
not-found error and inserts nothing. -/
theorem add_on_absent_id_raises_notFound_witness :
    Pycache.add ⟨[]⟩ 0 ⟨1, "1"⟩ (.vstr "hello") 0 (some 0) .dstr =
      (.error .notFound, ⟨[]⟩) :=
  add_on_absent_id_raises_notFound ⟨[]⟩ 0 ⟨1, "1"⟩ (.vstr "hello") 0 (some 0) .dstr rfl

/-! ## C2: `Pycache.update` does not delegate to `PycacheEntry.update` -/

/-- C2: the claim states that `Pycache.update` on a present identifier
delegates to that entry's `PycacheEntry.update`.  The code evaluates
`self.get(idx).update(entry, fetched_time)`, but `self.get` returns the raw
stored value, not the wrapper, so the `update` attribute is looked up on the
raw value (and the wrapper's argument order `(fetched_time, entry)` is also
swapped).  On the cache holding the int entry `5`, the container update
raises `AttributeError` (` int ` has no attribute ` update `) and changes
nothing, while the entry-level `PycacheEntry.update` it was supposed to
delegate to succeeds and reassigns value and fetched time. -/
theorem update_on_raw_value_not_entry :
    Pycache.update emptyClassTable cacheInt5 (.kint 1) (.vint 7) 99 =
      (.error (.attrMissing "update"), cacheInt5) ∧
    PycacheEntry.update emptyClassTable entInt5 99 (.vint 7) =
      (.ok .vnone, ⟨1, "1", 0, 99, some 0, .dint, .vint 7⟩) :=
  ⟨rfl, rfl⟩

/-! ## C3: `remove` always raises -/

/-- C3: the claim states that `remove` with a raw identifier removes the
matching entry and returns without error, raising the bad-identifier-type
error only for unsupported argument types.  The code's branches contain no
`return`, so after popping the entry control falls through to the final
`raise TypeError(...)`: removing the present entry under id `1` does pop it,
yet still raises the bad-identifier-type error. -/
theorem remove_present_entry_pops_and_raises :
    Pycache.remove cacheStrX (.rawInt 1) =
      (.error (.badIdentifierType "int"), ⟨[]⟩) :=
  rfl

/-! ## C4: duplicate `add` -/

/-- C4: the claim states that `add` with an already-present identifier fails
with the duplicate-key error and leaves the container exactly as before.
The duplicate test is `if not self.get(res.idx):`, which branches on the
truthiness of the existing entry's raw value, so when the stored value is
falsy (here the int `0`) the code takes the insert branch: it overwrites the
existing entry with the new one and then raises `AttributeError` from the
trailing `self.get(res.idx).value`, not the duplicate-key error. -/
theorem duplicate_add_on_falsy_value_overwrites :
    Pycache.add cacheInt0 5 ⟨1, "1"⟩ (.vint 7) 3 (some 0) .dint =
      (.error (.attrMissing "value"), ⟨[(.kint 1, ⟨1, "1", 5, 3, some 0, .dint, .vint 7⟩)]⟩) :=
  rfl

/-! ## C7: `is_stale` -/

/-- C7: `is_stale` returns `false` whenever `max_age` is `0` or unset,
regardless of the sampled wall clock; otherwise, with `max_age = m ≠ 0`, it
returns `true` exactly when `now - fetched_time > m`. -/
theorem is_stale_zero_and_boundary (e : PycacheEntry) (now : Int) :
    ((e.max_age = some 0 ∨ e.max_age = none) → e.is_stale now = false) ∧
    (∀ m : Int, e.max_age = some m → m ≠ 0 →
      (e.is_stale now = true ↔ now - e.fetched_time > m)) := by
  constructor
  · intro h
    rcases h with h | h <;> simp [PycacheEntry.is_stale, h]
  · intro m hm hm0
    simp [PycacheEntry.is_stale, hm, hm0]

/-- Entry with `max_age = 0` (never expires). -/
def entNeverStale : PycacheEntry := ⟨7, "7", 0, 100, some 0, .dint, .vint 1⟩

/-- Entry with `max_age = 5` fetched at time `100`. -/
def entMaxAge5 : PycacheEntry := ⟨7, "7", 0, 100, some 5, .dint, .vint 1⟩

/-- C7 witness: the `max_age = 0` entry is fresh even at a huge clock value,
and the `max_age = 5` entry is stale at `now = 106`. -/
theorem is_stale_zero_and_boundary_witness :
    entNeverStale.is_stale 999999999 = false ∧ entMaxAge5.is_stale 106 = true :=
  ⟨(is_stale_zero_and_boundary entNeverStale 999999999).1 (Or.inl rfl),
    ((is_stale_zero_and_boundary entMaxAge5 106).2 5 rfl (by decide)).mpr (by decide)⟩

/-! ## C5: rollback on a failing mutable update -/

/-- C5: on a mutable-kind entry whose stored value exposes a callable
`update` capability, if `value.update(newData)` raises, then the entry's
`value` afterwards is the rollback clone built by the declared type's
constructor from the pre-call `serialize()` output, `fetched_time` is
unchanged, the original failure is propagated unchanged, and — under the
spec's contract that the declared type reconstructs to the same serialized
form — the post-call value is observably equivalent by `serialize()` to the
pre-call value. -/
theorem mutable_update_failure_rolls_back (W : ClassTable) (e : PycacheEntry)
    (cls st st' : Nat) (s newData : PyVal) (err : PyErr) (ft : Int)
    (hinst : e.value_instance = .dclass cls)
    (hval : e.value = .vobj cls st)
    (hnd : isScalarInstance newData = false)
    (hupd : (W cls).updAttr = .callable)
    (hserA : (W cls).serAttr = .callable)
    (hser : (W cls).serFn st = .ok s)
    (hctor : (W cls).ctor s = .ok st')
    (hrt : (W cls).serFn st' = .ok s)
    (hfail : (W cls).updFn st newData = .error err) :
    PycacheEntry.update W e ft newData =
      (.error err, { e with value := .vobj cls st' }) ∧
    ({ e with value := PyVal.vobj cls st' } : PycacheEntry).fetched_time = e.fetched_time ∧
    PycacheEntry.serialize W { e with value := PyVal.vobj cls st' } =
      PycacheEntry.serialize W e := by
  have him : e.is_immutable = false := by
    simp [PycacheEntry.is_immutable, hinst, DeclType.isBuiltinImmutable]
  have hs : PycacheEntry.serialize W e = .ok s := by
    simp [PycacheEntry.serialize, him, hval, hserA, hser]
  have him' : ({ e with value := PyVal.vobj cls st' } : PycacheEntry).is_immutable = false := by
    simp [PycacheEntry.is_immutable, hinst, DeclType.isBuiltinImmutable]
  refine ⟨?_, rfl, ?_⟩
  · simp [PycacheEntry.update, him, hnd, hval, hupd, hs, instantiate, hinst, hctor, hfail]
  · simp [PycacheEntry.serialize, him, him', hval, hserA, hser, hrt]

/-- Class whose `serialize` reports the internal state modulo `100`, whose
constructor maps serialized `n` to internal state `n + 100` (so the clone's
internal state visibly differs from the original's), and whose `update`
always raises the user error `7`. -/
def rollbackClass : MutClass :=
  ⟨.callable, fun st => .ok (.vint (Int.ofNat (st % 100))), .callable,
    fun _ _ => .error (.userRaised 7),
    fun v => match v with
      | .vint n => .ok (n.toNat % 100 + 100)
      | _ => .error (.userRaised 0)⟩

/-- Class table assigning `rollbackClass` to every class id. -/
def rollbackTable : ClassTable := fun _ => rollbackClass

/-- Mutable-kind entry of class `0` with internal state `3`. -/
def entMut3 : PycacheEntry := ⟨2, "2", 0, 50, some 0, .dclass 0, .vobj 0 3⟩

/-- C5 witness: the failing update on `entMut3` propagates the user error
`7`, replaces the value with the clone (internal state `103`), and leaves
`fetched_time` and the `serialize()` observation unchanged. -/
theorem mutable_update_failure_rolls_back_witness :
    PycacheEntry.update rollbackTable entMut3 77 (.vobj 5 0) =
      (.error (.userRaised 7), { entMut3 with value := .vobj 0 103 }) ∧
    ({ entMut3 with value := PyVal.vobj 0 103 } : PycacheEntry).fetched_time =
      entMut3.fetched_time ∧
    PycacheEntry.serialize rollbackTable { entMut3 with value := PyVal.vobj 0 103 } =
      PycacheEntry.serialize rollbackTable entMut3 :=
  mutable_update_failure_rolls_back rollbackTable entMut3 0 3 103 (.vint 3) (.vobj 5 0)
    (.userRaised 7) 77 rfl rfl rfl rfl rfl rfl rfl rfl rfl

/-! ## C6: missing update capability -/

/-- Combined `hasattr(v, 'update')` / `callable(getattr(v, 'update', None))`
lookup: the update-capability kind of a raw value.  Scalar values and `None`
have no `update` attribute; objects defer to their class. -/
def updAttrOf (W : ClassTable) : PyVal → AttrKind
  | .vobj cls _ => (W cls).updAttr
  | _ => .absent

/-- C6: on a mutable-kind entry with non-scalar new data,
`PycacheEntry.update` raises the no-update-method error when the stored
value has no `update` attribute and the not-updatable error when the
attribute exists but is not callable; in both cases the entry (its `value`
and `fetched_time` included) is returned unchanged. -/
theorem mutable_update_missing_capability (W : ClassTable) (e : PycacheEntry)
    (newData : PyVal) (ft : Int)
    (him : e.is_immutable = false)
    (hnd : isScalarInstance newData = false) :
    (updAttrOf W e.value = .absent →
      PycacheEntry.update W e ft newData = (.error .noUpdateMethod, e)) ∧
    (updAttrOf W e.value = .notCallable →
      PycacheEntry.update W e ft newData = (.error .notUpdatable, e)) := by
  constructor
  · intro h
    cases hv : e.value <;> simp_all [PycacheEntry.update, updAttrOf]
  · intro h
    cases hv : e.value <;> simp_all [PycacheEntry.update, updAttrOf]

/-- Class whose `update` attribute is present but not callable. -/
def notCallableClass : MutClass :=
  ⟨.absent, fun _ => .error .noSerializeMethod, .notCallable,
    fun _ _ => .error (.userRaised 0), fun _ => .error (.userRaised 0)⟩

/-- Class table assigning `notCallableClass` to every class id. -/
def notCallableTable : ClassTable := fun _ => notCallableClass

/-- Mutable-kind entry of class `1` with internal state `0`. -/
def entMutPlain : PycacheEntry := ⟨3, "3", 0, 10, some 0, .dclass 1, .vobj 1 0⟩

/-- C6 witness: under the capability-free table the update raises the
no-update-method error, and under the not-callable table it raises the
not-updatable error; both leave the entry unchanged. -/
theorem mutable_update_missing_capability_witness :
    PycacheEntry.update emptyClassTable entMutPlain 5 (.vobj 1 1) =
      (.error .noUpdateMethod, entMutPlain) ∧
    PycacheEntry.update notCallableTable entMutPlain 5 (.vobj 1 1) =
      (.error .notUpdatable, entMutPlain) :=
  ⟨(mutable_update_missing_capability emptyClassTable entMutPlain (.vobj 1 1) 5 rfl rfl).1 rfl,
    (mutable_update_missing_capability notCallableTable entMutPlain (.vobj 1 1) 5 rfl rfl).2 rfl⟩

/-! ## C10: serialization failure precedes the update call -/

/-- Override the `update` method body of class `cls`, leaving everything
else — both attribute kinds, `serialize`, and the constructor — unchanged. -/
def setUpdFn (W : ClassTable) (cls : Nat)
    (f : Nat → PyVal → Except PyErr (PyVal × Nat)) : ClassTable :=
  fun i =>
    if i = cls then
      ⟨(W cls).serAttr, (W cls).serFn, (W cls).updAttr, f, (W cls).ctor⟩
    else W i

/-- C10: on a mutable-kind entry whose stored value has a callable `update`
capability but no callable `serialize` capability, `update` with non-scalar
new data raises the serialization error (absent attribute or
present-but-not-callable, respectively) and returns the entry unchanged —
and it does so for every possible `update` method body, because the
rollback clone is built from `serialize()` before `value.update` is ever
invoked. -/
theorem serialize_failure_precedes_value_update (W : ClassTable) (e : PycacheEntry)
    (cls st : Nat) (newData : PyVal) (ft : Int)
    (him : e.is_immutable = false)
    (hval : e.value = .vobj cls st)
    (hnd : isScalarInstance newData = false)
    (hupd : (W cls).updAttr = .callable)
    (hser : (W cls).serAttr ≠ .callable) :
    ∀ f, PycacheEntry.update (setUpdFn W cls f) e ft newData =
      (.error (if (W cls).serAttr = .absent then PyErr.noSerializeMethod
        else PyErr.serializeNotCallable), e) := by
  intro f
  have hw : setUpdFn W cls f cls =
      ⟨(W cls).serAttr, (W cls).serFn, (W cls).updAttr, f, (W cls).ctor⟩ := by
    simp [setUpdFn]
  cases hsa : (W cls).serAttr with
  | absent =>
    have hs : PycacheEntry.serialize (setUpdFn W cls f) e = .error .noSerializeMethod := by
      simp [PycacheEntry.serialize, him, hval, hw, hsa]
    simp [PycacheEntry.update, him, hnd, hval, hw, hupd, hs, hsa]
  | notCallable =>
    have hs : PycacheEntry.serialize (setUpdFn W cls f) e = .error .serializeNotCallable := by
      simp [PycacheEntry.serialize, him, hval, hw, hsa]
    simp [PycacheEntry.update, him, hnd, hval, hw, hupd, hs, hsa]
  | callable => exact absurd hsa hser

/-- Class with a callable `update` but no `serialize` attribute at all. -/
def serAbsentClass : MutClass :=
  ⟨.absent, fun _ => .error .noSerializeMethod, .callable,
    fun _ _ => .ok (.vnone, 0), fun _ => .error (.userRaised 0)⟩

/-- Class table assigning `serAbsentClass` to every class id. -/
def serAbsentTable : ClassTable := fun _ => serAbsentClass

/-- Mutable-kind entry of class `0` with internal state `9`. -/
def entMutNoSer : PycacheEntry := ⟨4, "4", 0, 20, some 0, .dclass 0, .vobj 0 9⟩

/-- C10 witness: with the serialize-free class, the update raises the
no-serialize-method error and leaves the entry unchanged, even though the
(overridden) `update` body would have succeeded. -/
theorem serialize_failure_precedes_value_update_witness :
    PycacheEntry.update (setUpdFn serAbsentTable 0 fun _ _ => .ok (.vnone, 42))
        entMutNoSer 5 (.vobj 0 0) =
      (.error .noSerializeMethod, entMutNoSer) :=
  serialize_failure_precedes_value_update serAbsentTable entMutNoSer 0 9 (.vobj 0 0) 5
    rfl rfl rfl rfl (by decide) (fun _ _ => .ok (.vnone, 42))

/-! ## View lemmas shared by the `find`-based claims -/

/-- The result set of `find`, reading the no-matches failure as the empty
mapping, is exactly the filtered projection of the cache. -/
theorem viewList_find_eq (c : Pycache) (cond : PycacheEntry → Bool) :
    viewList (c.find cond) =
      ((c.cache.filter fun p => cond p.2).map fun p => (p.1, p.2.value)) := by
  by_cases h : 0 < (c.cache.filter fun p => cond p.2).length
  · simp [Pycache.find, viewList, h]
  · have h0 : (c.cache.filter fun p => cond p.2) = [] :=
      List.length_eq_zero.mp (Nat.eq_zero_of_not_pos h)
    simp [Pycache.find, viewList, h0]

/-- In a dict with no duplicate keys, a key determines its entry. -/
theorem keyUnique : ∀ {l : List (PyKey × PycacheEntry)},
    (l.map Prod.fst).Nodup → ∀ {k : PyKey} {a b : PycacheEntry},
    (k, a) ∈ l → (k, b) ∈ l → a = b := by
  intro l
  induction l with
  | nil =>
    intro _ k a b ha _
    cases ha
  | cons p rest ih =>
    intro hnd k a b ha hb
    rw [List.map_cons, List.nodup_cons] at hnd
    rcases List.mem_cons.mp ha with ha | ha <;> rcases List.mem_cons.mp hb with hb | hb
    · exact congrArg Prod.snd (ha.trans hb.symm)
    · exfalso
      apply hnd.1
      have hk : k = p.1 := congrArg Prod.fst ha
      rw [← hk]
      exact List.mem_map_of_mem Prod.fst hb
    · exfalso
      apply hnd.1
      have hk : k = p.1 := congrArg Prod.fst hb
      rw [← hk]
      exact List.mem_map_of_mem Prod.fst ha
    · exact ih hnd.2 ha hb

/-- Membership in a `find`-based view, for a cache whose dict keys are
unique: an entry's binding appears in the view exactly when the condition
holds of the entry. -/
theorem mem_viewList_find (c : Pycache) (cond : PycacheEntry → Bool)
    (hnd : (c.cache.map Prod.fst).Nodup) {k : PyKey} {e : PycacheEntry}
    (he : (k, e) ∈ c.cache) :
    ((k, e.value) ∈ viewList (c.find cond)) ↔ cond e = true := by
  rw [viewList_find_eq]
  constructor
  · intro hmem
    rcases List.mem_map.mp hmem with ⟨p, hpf, hpe⟩
    rcases List.mem_filter.mp hpf with ⟨hpc, hpcond⟩
    obtain ⟨k1, e1⟩ := p
    have hk : k1 = k := congrArg Prod.fst hpe
    subst hk
    have he1 : e1 = e := keyUnique hnd hpc he
    subst he1
    exact hpcond
  · intro hcond
    exact List.mem_map.mpr ⟨(k, e), List.mem_filter.mpr ⟨he, hcond⟩, rfl⟩

/-! ## C8: per-concrete-type views -/

/-- Entry with declared type `bool` storing `True` under id `1`. -/
def entBoolTrue : PycacheEntry := ⟨1, "1", 0, 0, some 0, .dbool, .vbool true⟩

/-- Cache holding only `entBoolTrue`. -/
def cacheBoolTrue : Pycache := ⟨[(.kint 1, entBoolTrue)]⟩

/-- C8 counterexample: the claim states that a per-concrete-type view
returns exactly the entries whose stored value's exact runtime type is that
concrete type — in particular that a `bool`-valued entry does not appear in
the integers view.  On the cache holding the single entry `True` (exact
runtime type `bool`, not `int`) the integers view nevertheless returns that
entry, because the source filters with `isinstance(entry.value, int)` and
Python's `bool` is a subclass of `int`. -/
theorem bool_entry_appears_in_int_view :
    Pycache.int cacheBoolTrue = .ok [(.kint 1, .vbool true)] ∧
      exactTypeInt (.vbool true) = false :=
  ⟨rfl, rfl⟩

/-- C8 amended: each per-concrete-type view returns the bindings of the
entries whose stored value is an instance (`isinstance`) of that concrete
type, or the no-matches failure when there are none; since `bool` is a
subclass of `int`, every binding in the booleans view also appears in the
integers view. -/
theorem type_views_filter_by_isinstance (c : Pycache) :
    viewList (Pycache.int c) =
      ((c.cache.filter fun p => isinstInt p.2.value).map fun p => (p.1, p.2.value)) ∧
    viewList (Pycache.bool c) =
      ((c.cache.filter fun p => isinstBool p.2.value).map fun p => (p.1, p.2.value)) ∧
    ∀ x, x ∈ viewList (Pycache.bool c) → x ∈ viewList (Pycache.int c) := by
  refine ⟨viewList_find_eq c _, viewList_find_eq c _, ?_⟩
  intro x hx
  unfold Pycache.bool at hx
  unfold Pycache.int
  rw [viewList_find_eq] at hx ⊢
  rcases List.mem_map.mp hx with ⟨p, hpf, hpe⟩
  rcases List.mem_filter.mp hpf with ⟨hpc, hpcond⟩
  refine List.mem_map.mpr ⟨p, List.mem_filter.mpr ⟨hpc, ?_⟩, hpe⟩
  cases hv : p.2.value <;> simp_all [isinstBool, isinstInt]

/-- C8 witness: the `True` entry's binding, present in the booleans view of
`cacheBoolTrue`, is also in its integers view. -/
theorem type_views_filter_by_isinstance_witness :
    (PyKey.kint 1, PyVal.vbool true) ∈ viewList (Pycache.int cacheBoolTrue) :=
  (type_views_filter_by_isinstance cacheBoolTrue).2.2 (PyKey.kint 1, PyVal.vbool true)
    (by decide)

/-! ## C9: `find` on no matches, and the stale/fresh partition -/

/-- C9: with the scan evaluated at a fixed wall clock `now` and a cache
whose dict keys are unique: `find` with a condition matching no entry fails
with the no-matches error (never an empty mapping), and — reading a
no-matches failure as the empty set — every entry's binding appears in the
`stale()` view exactly when the entry is stale and in the `fresh()` view
exactly when it is not, so the two views partition the entry set with no
overlap. -/
theorem find_noMatches_and_stale_fresh_partition (c : Pycache) (now : Int)
    (cond : PycacheEntry → Bool)
    (hnd : (c.cache.map Prod.fst).Nodup)
    (hnone : ∀ p ∈ c.cache, cond p.2 = false) :
    Pycache.find c cond = .error .noMatches ∧
    ∀ k e, (k, e) ∈ c.cache →
      (((k, e.value) ∈ viewList (Pycache.stale c now)) ↔ e.is_stale now = true) ∧
      (((k, e.value) ∈ viewList (Pycache.fresh c now)) ↔ e.is_stale now = false) := by
  constructor
  · have h0 : (c.cache.filter fun p => cond p.2) = [] := by
      apply List.filter_eq_nil_iff.mpr
      intro p hp
      simp [hnone p hp]
    simp [Pycache.find, h0]
  · intro k e he
    constructor
    · exact mem_viewList_find c _ hnd he
    · have h := mem_viewList_find c (fun entry => !entry.is_stale now) hnd he
      simpa using h

/-- Entry with `max_age = 0` stored alongside `entMaxAge5` in the partition
witness cache. -/
def entFreshW : PycacheEntry := ⟨8, "8", 0, 100, some 0, .dint, .vint 2⟩

/-- Two-entry cache: `entMaxAge5` (stale at `now = 106`) under key `7` and
`entFreshW` (never stale) under key `8`. -/
def cachePartitionW : Pycache := ⟨[(.kint 7, entMaxAge5), (.kint 8, entFreshW)]⟩

/-- C9 witness: on the two-entry cache, `find` with the never-true condition
raises the no-matches error, and at `now = 106` the `max_age = 5` entry's
binding is in the stale view and not in the fresh view. -/
theorem find_noMatches_and_stale_fresh_partition_witness :
    Pycache.find cachePartitionW (fun _ => false) = .error .noMatches ∧
    ((PyKey.kint 7, PyVal.vint 1) ∈ viewList (Pycache.stale cachePartitionW 106)) ∧
    ¬ ((PyKey.kint 7, PyVal.vint 1) ∈ viewList (Pycache.fresh cachePartitionW 106)) := by
  have h := find_noMatches_and_stale_fresh_partition cachePartitionW 106 (fun _ => false)
    (by decide) (fun p _ => rfl)
  refine ⟨h.1, ?_, ?_⟩
  · exact ((h.2 (PyKey.kint 7) entMaxAge5 (by decide)).1).mpr (by decide)
  · intro hmem
    have hfalse := ((h.2 (PyKey.kint 7) entMaxAge5 (by decide)).2).mp hmem
    exact absurd hfalse (by decide)
